import Mathlib

/-!
Verification development for the mcp-tradovate repository.

This file gives a shallow embedding of the handler layer
(internal/handlers/handlers.go) and the API client
(internal/client, the variant that defines TradovateClientInterface)
and proves properties of the parameter-validation and
error-normalization logic.

Modelling conventions:
* Go `float64` parameter values are modelled as rationals.  No floating
  point arithmetic is performed anywhere in the modelled code: the only
  operations applied to numeric parameters are comparison with zero,
  equality of strings, and truncation to `int`, all of which are exact,
  so rationals are a faithful carrier.
* Go `map[string]interface \x7b\x7d` parameter bags are association lists
  from field name to a dynamic `GoValue`.
* A Go type assertion `v.(T)` without the comma-ok form panics at run
  time when the dynamic type does not match; the outcome type `HOut`
  has a dedicated `crash` constructor for this, distinct from an
  ordinary returned `error` (`err`) and from success (`ok`).
* External collaborators (the HTTP transport, `encoding/json` decoding,
  and `time.Parse`) are passed in as function parameters, so every
  theorem quantifies over their behaviour.
-/

namespace Tradovate

instance {ε α : Type} [DecidableEq ε] [DecidableEq α] : DecidableEq (Except ε α) := fun x y =>
  match x, y with
  | .error a, .error b =>
    if h : a = b then isTrue (by rw [h]) else isFalse (by simp [h])
  | .ok a, .ok b =>
    if h : a = b then isTrue (by rw [h]) else isFalse (by simp [h])
  | .error _, .ok _ => isFalse (by simp)
  | .ok _, .error _ => isFalse (by simp)

/-- Dynamic values stored in a decoded JSON parameter map
(the Go type `interface` value behind `map[string]...`). -/
inductive GoValue where
  | vnum (x : ℚ)
  | vstr (s : String)
  | vbool (b : Bool)
  | vnull
  deriving DecidableEq, Repr

/-- A Go parameter map, as an association list from field name to value. -/
abbrev Params := List (String × GoValue)

/-- Map lookup: `params[field]` returns the stored value when the key is
present. -/
def getParam (params : Params) (field : String) : Option GoValue :=
  (params.find? (fun p => p.1 == field)).map Prod.snd

/-- The comma-ok type assertion `v.(float64)`: succeeds exactly when the
field is present with numeric dynamic type. -/
def asNum (v : Option GoValue) : Option ℚ :=
  match v with
  | some (.vnum x) => some x
  | _ => none

/-- The comma-ok type assertion `v.(string)`: succeeds exactly when the
field is present with string dynamic type. -/
def asStr (v : Option GoValue) : Option String :=
  match v with
  | some (.vstr s) => some s
  | _ => none

/-- Go `int(x)` conversion from `float64`: truncation toward zero
(T-division of the numerator by the denominator). -/
def goInt (x : ℚ) : ℤ :=
  Int.tdiv x.num (x.den : ℤ)

/-- Outcome of running a Go handler: a runtime panic from a failed bare
type assertion (`crash`), an ordinary returned error value (`err`), or a
returned result (`ok`). -/
inductive HOut (α : Type) where
  | crash (msg : String)
  | err (msg : String)
  | ok (v : α)
  deriving DecidableEq, Repr

/-! ## Domain model (internal/models/models.go) -/

/-- models.Order.  Fields not listed in a Go composite literal take the
zero value, written here as defaults. -/
structure Order where
  id : ℤ := 0
  accountId : ℤ
  contractId : ℤ
  orderType : String
  side : String := ""
  price : ℚ := 0
  stopPrice : ℚ := 0
  quantity : ℤ
  timeInForce : String
  status : String := ""
  filledQty : ℤ := 0
  averagePrice : ℚ := 0
  createdAt : ℤ := 0
  updatedAt : ℤ := 0
  deriving DecidableEq, Repr

/-- models.RiskLimit. -/
structure RiskLimit where
  accountId : ℤ
  dayMaxLoss : ℚ
  maxDrawdown : ℚ
  maxPositionQty : ℤ
  trailingStop : ℚ
  deriving DecidableEq, Repr

/-- models.Fill. -/
structure Fill where
  id : ℤ := 0
  orderId : ℤ := 0
  price : ℚ := 0
  quantity : ℤ := 0
  timestamp : ℤ := 0
  deriving DecidableEq, Repr

/-- models.MarketData. -/
structure MarketData where
  contractId : ℤ := 0
  bid : ℚ := 0
  ask : ℚ := 0
  last : ℚ := 0
  volume : ℤ := 0
  timestamp : ℤ := 0
  deriving DecidableEq, Repr

/-- models.HistoricalData.  The Open field is renamed openPrice because
its source name is a keyword here. -/
structure HistoricalData where
  contractId : ℤ := 0
  timestamp : ℤ := 0
  openPrice : ℚ := 0
  high : ℚ := 0
  low : ℚ := 0
  close : ℚ := 0
  volume : ℤ := 0
  deriving DecidableEq, Repr

/-- models.Account. -/
structure Account where
  id : ℤ := 0
  name : String := ""
  accountType : String := ""
  active : Bool := false
  cashBalance : ℚ := 0
  realizedPnL : ℚ := 0
  unrealizedPnL : ℚ := 0
  deriving DecidableEq, Repr

/-- models.Position. -/
structure Position where
  id : ℤ := 0
  accountId : ℤ := 0
  contractId : ℤ := 0
  netPos : ℤ := 0
  avgPrice : ℚ := 0
  realizedPL : ℚ := 0
  unrealizedPL : ℚ := 0
  deriving DecidableEq, Repr

/-- models.Contract. -/
structure Contract where
  id : ℤ := 0
  name : String := ""
  contractType : String := ""
  exchange : String := ""
  symbol : String := ""
  deriving DecidableEq, Repr

/-! ## The client interface seen by the handlers

`client.TradovateClientInterface` as consumed by `NewHandlers`.  Each
method returns either a domain value or a Go `error` (a string).
Methods whose Go signature is `error` alone are modelled with
`Option String` (`some` = non-nil error, `none` = nil error).
Parsed `time.Time` values are modelled by their instant (an integer),
which is all the handler layer ever inspects or forwards. -/
structure TradovateClientInterface where
  placeOrder : Order → Except String Order
  cancelOrder : ℤ → Option String
  getFills : ℤ → Except String (List Fill)
  getMarketData : ℤ → Except String MarketData
  getHistoricalData : ℤ → ℤ → ℤ → String → Except String (List HistoricalData)
  setRiskLimits : RiskLimit → Option String
  getRiskLimits : ℤ → Except String RiskLimit

/-- The dynamic result value a handler returns (the Go `interface`
result component): nil, a map with a single boolean success key, or a
domain value. -/
inductive GoRes where
  | rnil
  | rsuccess (b : Bool)
  | rorder (o : Order)
  | rfills (fs : List Fill)
  | rmarket (m : MarketData)
  | rrisk (r : RiskLimit)
  | rhist (hs : List HistoricalData)
  deriving DecidableEq, Repr

/-! ## Handlers (internal/handlers/handlers.go) -/

/-- The required-field list of handlePlaceOrder, in declaration order. -/
def placeOrderRequiredFields : List String :=
  ["accountId", "contractId", "orderType", "quantity", "timeInForce"]

/-- The presence loop of handlePlaceOrder: the first field of the
required list that is absent from the parameter map, if any. -/
def firstMissingField (params : Params) (fields : List String) : Option String :=
  fields.find? (fun f => (getParam params f).isNone)

/-- The price block of handlePlaceOrder: for a Limit order the price
parameter must be present and numeric, otherwise the zero value is
used. -/
def resolvePrice (orderType : String) (params : Params) : HOut ℚ :=
  if orderType = "Limit" then
    match asNum (getParam params "price") with
    | none => .err "price is required for Limit orders"
    | some p => .ok p
  else
    .ok 0

/-- The final delegation of handlePlaceOrder: `return client.PlaceOrder(order)`,
with the result or error passed through unchanged. -/
def placeOrderDelegate (client : TradovateClientInterface) (order : Order) : HOut GoRes :=
  match client.placeOrder order with
  | .ok placed => .ok (.rorder placed)
  | .error e => .err e

/-- handlePlaceOrder: presence loop over the five required fields, then
comma-ok type assertions in declaration order, then the conditional
price rule, then construction of the domain Order and delegation. -/
def handlePlaceOrder (client : TradovateClientInterface) (params : Params) : HOut GoRes :=
  match firstMissingField params placeOrderRequiredFields with
  | some f => .err ("missing required field: " ++ f)
  | none =>
    match asNum (getParam params "accountId") with
    | none => .err "invalid type assertion for accountId"
    | some accountID =>
      match asNum (getParam params "contractId") with
      | none => .err "invalid type assertion for contractId"
      | some contractID =>
        match asStr (getParam params "orderType") with
        | none => .err "invalid type assertion for orderType"
        | some orderType =>
          match asNum (getParam params "quantity") with
          | none => .err "invalid type assertion for quantity"
          | some quantity =>
            match asStr (getParam params "timeInForce") with
            | none => .err "invalid type assertion for timeInForce"
            | some timeInForce =>
              match resolvePrice orderType params with
              | .crash m => .crash m
              | .err m => .err m
              | .ok price =>
                placeOrderDelegate client
                  { accountId := goInt accountID
                    contractId := goInt contractID
                    orderType := orderType
                    price := price
                    quantity := goInt quantity
                    timeInForce := timeInForce }

/-- The final statement of handleSetRiskLimits:
`return nil, client.SetRiskLimits(limits)` — the result component is
always nil; only the error component comes from the client. -/
def setRiskLimitsDelegate (client : TradovateClientInterface) (limits : RiskLimit) :
    HOut GoRes :=
  match client.setRiskLimits limits with
  | some e => .err e
  | none => .ok .rnil

/-- handleSetRiskLimits: comma-ok assertion for accountId, then for each
of the four limit fields a combined missing-or-invalid check
(`!ok || v < 0`), then construction of the RiskLimit and
`return nil, client.SetRiskLimits(limits)`. -/
def handleSetRiskLimits (client : TradovateClientInterface) (params : Params) : HOut GoRes :=
  match asNum (getParam params "accountId") with
  | none => .err "missing or invalid accountId"
  | some accountID =>
    match asNum (getParam params "dayMaxLoss") with
    | none => .err "missing or invalid dayMaxLoss"
    | some dayMaxLoss =>
      if dayMaxLoss < 0 then .err "missing or invalid dayMaxLoss" else
      match asNum (getParam params "maxDrawdown") with
      | none => .err "missing or invalid maxDrawdown"
      | some maxDrawdown =>
        if maxDrawdown < 0 then .err "missing or invalid maxDrawdown" else
        match asNum (getParam params "maxPositionQty") with
        | none => .err "missing or invalid maxPositionQty"
        | some maxPositionQty =>
          if maxPositionQty < 0 then .err "missing or invalid maxPositionQty" else
          match asNum (getParam params "trailingStop") with
          | none => .err "missing or invalid trailingStop"
          | some trailingStop =>
            if trailingStop < 0 then .err "missing or invalid trailingStop" else
            setRiskLimitsDelegate client
              { accountId := goInt accountID
                dayMaxLoss := dayMaxLoss
                maxDrawdown := maxDrawdown
                maxPositionQty := goInt maxPositionQty
                trailingStop := trailingStop }

/-- The cancelOrder closure of NewHandlers: a bare type assertion
`params["orderId"].(float64)` (which panics when the field is absent or
non-numeric), then delegation, wrapping success as a success map. -/
def handleCancelOrder (client : TradovateClientInterface) (params : Params) : HOut GoRes :=
  match asNum (getParam params "orderId") with
  | none => .crash "interface conversion: orderId is not float64"
  | some orderID =>
    match client.cancelOrder (goInt orderID) with
    | some e => .err e
    | none => .ok (.rsuccess true)

/-- The getFills closure of NewHandlers: bare assertion on orderId, then
delegation with the result passed through. -/
def handleGetFills (client : TradovateClientInterface) (params : Params) : HOut GoRes :=
  match asNum (getParam params "orderId") with
  | none => .crash "interface conversion: orderId is not float64"
  | some orderID =>
    match client.getFills (goInt orderID) with
    | .ok fs => .ok (.rfills fs)
    | .error e => .err e

/-- The getMarketData closure of NewHandlers: bare assertion on
contractId, then delegation with the result passed through. -/
def handleGetMarketData (client : TradovateClientInterface) (params : Params) : HOut GoRes :=
  match asNum (getParam params "contractId") with
  | none => .crash "interface conversion: contractId is not float64"
  | some contractID =>
    match client.getMarketData (goInt contractID) with
    | .ok m => .ok (.rmarket m)
    | .error e => .err e

/-- The getRiskLimits closure of NewHandlers: bare assertion on
accountId, then delegation with the result passed through. -/
def handleGetRiskLimits (client : TradovateClientInterface) (params : Params) : HOut GoRes :=
  match asNum (getParam params "accountId") with
  | none => .crash "interface conversion: accountId is not float64"
  | some accountID =>
    match client.getRiskLimits (goInt accountID) with
    | .ok r => .ok (.rrisk r)
    | .error e => .err e

/-- The final delegation of handleGetHistoricalData:
`return client.GetHistoricalData(...)` with the result or error passed
through unchanged. -/
def historicalDataDelegate (client : TradovateClientInterface)
    (contractID startTime endTime : ℤ) (interval : String) : HOut GoRes :=
  match client.getHistoricalData contractID startTime endTime interval with
  | .ok hs => .ok (.rhist hs)
  | .error e => .err e

/-- handleGetHistoricalData.  `parse` stands for
`time.Parse(time.RFC3339, s)`, returning the parsed instant or the
parse error text that the handler wraps.  The handler asserts
startTime as a string (bare assertion), parses it, then endTime, and
only when both parse does it evaluate the remaining bare assertions on
contractId and interval and delegate. -/
def handleGetHistoricalData (parse : String → Except String ℤ)
    (client : TradovateClientInterface) (params : Params) : HOut GoRes :=
  match asStr (getParam params "startTime") with
  | none => .crash "interface conversion: startTime is not string"
  | some startRaw =>
    match parse startRaw with
    | .error e => .err ("invalid start time: " ++ e)
    | .ok startTime =>
      match asStr (getParam params "endTime") with
      | none => .crash "interface conversion: endTime is not string"
      | some endRaw =>
        match parse endRaw with
        | .error e => .err ("invalid end time: " ++ e)
        | .ok endTime =>
          match asNum (getParam params "contractId") with
          | none => .crash "interface conversion: contractId is not float64"
          | some contractID =>
            match asStr (getParam params "interval") with
            | none => .crash "interface conversion: interval is not string"
            | some interval =>
              historicalDataDelegate client (goInt contractID) startTime endTime interval

/-! ## API client (internal/client, TradovateClient)

The client holds an HTTP client, an access token and a base URL; only
the token and the base URL influence the modelled behaviour.  The HTTP
transport, JSON encoding of request bodies and JSON decoding of
response bodies are external collaborators, passed in through the
`Wire` record so that every theorem quantifies over them. -/

/-- The mutable client value: accessToken and baseURL fields of
TradovateClient. -/
structure ClientState where
  accessToken : String := ""
  baseURL : String := "https://live.tradovate.com/v1"
  deriving DecidableEq, Repr

/-- An outgoing HTTP request as assembled by doRequest: method, full
URL, ordered header list, optional JSON-encoded body. -/
structure HttpRequest where
  method : String
  url : String
  headers : List (String × String)
  body : Option String
  deriving DecidableEq, Repr

/-- An HTTP response: its status code and raw body text. -/
structure HttpResponse where
  statusCode : ℕ
  body : String
  deriving DecidableEq, Repr

/-- What `httpClient.Do` can produce: a transport failure or a
response. -/
inductive TransportResult where
  | failure (msg : String)
  | response (resp : HttpResponse)
  deriving DecidableEq, Repr

/-- The external collaborators of the client: the HTTP transport, the
decoder for the error-text struct of doRequest, and the per-operation
JSON encoders and decoders.  Go json.Marshal of these plain structs
cannot fail, so the encoders are total. -/
structure Wire where
  send : HttpRequest → TransportResult
  decodeErrText : String → Except String String
  encodeOrder : Order → String
  encodeRisk : RiskLimit → String
  encodeHistParams : ℤ → ℤ → ℤ → String → String
  decodeAccounts : String → Except String (List Account)
  decodeRisk : String → Except String RiskLimit
  decodeOrder : String → Except String Order
  decodeFills : String → Except String (List Fill)
  decodePositions : String → Except String (List Position)
  decodeContracts : String → Except String (List Contract)
  decodeMarket : String → Except String MarketData
  decodeHist : String → Except String (List HistoricalData)

/-- The request assembly inside doRequest: URL is baseURL ++ endpoint,
the Content-Type header is always set, and the Authorization bearer
header is set exactly when the stored access token is non-empty. -/
def buildRequest (c : ClientState) (method endpoint : String) (body : Option String) :
    HttpRequest :=
  { method := method
    url := c.baseURL ++ endpoint
    headers :=
      [("Content-Type", "application/json")] ++
        (if c.accessToken ≠ "" then [("Authorization", "Bearer " ++ c.accessToken)] else [])
    body := body }

/-- Value of a header in an assembled request. -/
def headerValue (req : HttpRequest) (key : String) : Option String :=
  (req.headers.find? (fun p => p.1 == key)).map Prod.snd

/-- doRequest: build the request, send it, and normalize an error
response.  A transport failure is wrapped; a response with status code
at least 400 becomes an error carrying the numeric status and, when the
body decodes as the error-text struct, the server supplied text; any
other response is returned to the caller. -/
def doRequest (w : Wire) (c : ClientState) (method endpoint : String)
    (body : Option String) : Except String HttpResponse :=
  match w.send (buildRequest c method endpoint body) with
  | .failure e => .error ("error sending request: " ++ e)
  | .response resp =>
    if 400 ≤ resp.statusCode then
      match w.decodeErrText resp.body with
      | .error _ => .error ("status " ++ toString resp.statusCode)
      | .ok errText => .error ("status " ++ toString resp.statusCode ++ ": " ++ errText)
    else
      .ok resp

/-- AuthResponse of the client package. -/
structure AuthResponse where
  accessToken : String := ""
  mdAccessToken : String := ""
  expirationTime : String := ""
  userId : ℤ := 0
  name : String := ""
  errorText : String := ""
  deriving DecidableEq, Repr

/-- The external outcome of the Authenticate HTTP exchange: a marshal
failure, a transport failure, a body that does not decode as an
AuthResponse, or a decoded AuthResponse. -/
inductive AuthWire where
  | marshalFailure (msg : String)
  | transportFailure (msg : String)
  | decodeFailure (msg : String)
  | decoded (r : AuthResponse)
  deriving DecidableEq, Repr

/-- Authenticate: every failure path returns the wrapped error and
leaves the client state untouched; only the success path (decoded
response with empty error text) stores the received access token. -/
def authenticate (c : ClientState) (wire : AuthWire) :
    ClientState × Except String AuthResponse :=
  match wire with
  | .marshalFailure m => (c, .error ("failed to marshal auth request: " ++ m))
  | .transportFailure m => (c, .error ("failed to send request: " ++ m))
  | .decodeFailure m => (c, .error ("failed to decode response: " ++ m))
  | .decoded r =>
    if r.errorText ≠ "" then
      (c, .error ("authentication failed: " ++ r.errorText))
    else
      ({ c with accessToken := r.accessToken }, .ok r)

namespace TClient

/-- client.GetAccounts. -/
def getAccounts (w : Wire) (c : ClientState) : Except String (List Account) :=
  match doRequest w c "GET" "/account/list" none with
  | .error e => .error e
  | .ok resp =>
    match w.decodeAccounts resp.body with
    | .error e => .error ("error decoding accounts: " ++ e)
    | .ok accounts => .ok accounts

/-- client.GetRiskLimits. -/
def getRiskLimits (w : Wire) (c : ClientState) (accountID : ℤ) :
    Except String RiskLimit :=
  match doRequest w c "GET" ("/account/riskLimits/" ++ toString accountID) none with
  | .error e => .error e
  | .ok resp =>
    match w.decodeRisk resp.body with
    | .error e => .error ("error decoding risk limits: " ++ e)
    | .ok limits => .ok limits

/-- client.SetRiskLimits: after doRequest succeeds, a non-200 status is
still rejected. -/
def setRiskLimits (w : Wire) (c : ClientState) (limits : RiskLimit) : Option String :=
  match doRequest w c "POST" "/account/setRiskLimits" (some (w.encodeRisk limits)) with
  | .error e => some e
  | .ok resp =>
    if resp.statusCode ≠ 200 then
      some ("failed to set risk limits: status " ++ toString resp.statusCode)
    else
      none

/-- client.PlaceOrder. -/
def placeOrder (w : Wire) (c : ClientState) (order : Order) : Except String Order :=
  match doRequest w c "POST" "/order/placeOrder" (some (w.encodeOrder order)) with
  | .error e => .error e
  | .ok resp =>
    match w.decodeOrder resp.body with
    | .error e => .error ("error decoding order response: " ++ e)
    | .ok placed => .ok placed

/-- client.CancelOrder: after doRequest succeeds, a non-200 status is
still rejected. -/
def cancelOrder (w : Wire) (c : ClientState) (orderID : ℤ) : Option String :=
  match doRequest w c "DELETE" ("/order/cancel/" ++ toString orderID) none with
  | .error e => some e
  | .ok resp =>
    if resp.statusCode ≠ 200 then
      some ("failed to cancel order: status " ++ toString resp.statusCode)
    else
      none

/-- client.GetFills. -/
def getFills (w : Wire) (c : ClientState) (orderID : ℤ) : Except String (List Fill) :=
  match doRequest w c "GET" ("/fill/list/" ++ toString orderID) none with
  | .error e => .error e
  | .ok resp =>
    match w.decodeFills resp.body with
    | .error e => .error ("error decoding fills: " ++ e)
    | .ok fills => .ok fills

/-- client.GetPositions. -/
def getPositions (w : Wire) (c : ClientState) : Except String (List Position) :=
  match doRequest w c "GET" "/position/list" none with
  | .error e => .error e
  | .ok resp =>
    match w.decodePositions resp.body with
    | .error e => .error ("error decoding positions: " ++ e)
    | .ok positions => .ok positions

/-- client.GetContracts. -/
def getContracts (w : Wire) (c : ClientState) : Except String (List Contract) :=
  match doRequest w c "GET" "/contract/list" none with
  | .error e => .error e
  | .ok resp =>
    match w.decodeContracts resp.body with
    | .error e => .error ("error decoding contracts: " ++ e)
    | .ok contracts => .ok contracts

/-- client.GetMarketData. -/
def getMarketData (w : Wire) (c : ClientState) (contractID : ℤ) :
    Except String MarketData :=
  match doRequest w c "GET" ("/md/getQuote/" ++ toString contractID) none with
  | .error e => .error e
  | .ok resp =>
    match w.decodeMarket resp.body with
    | .error e => .error ("error decoding market data: " ++ e)
    | .ok marketData => .ok marketData

/-- client.GetHistoricalData: the query parameters are JSON-encoded as
the request body. -/
def getHistoricalData (w : Wire) (c : ClientState) (contractID : ℤ)
    (startTime endTime : ℤ) (interval : String) :
    Except String (List HistoricalData) :=
  match doRequest w c "GET" "/md/historical"
      (some (w.encodeHistParams contractID startTime endTime interval)) with
  | .error e => .error e
  | .ok resp =>
    match w.decodeHist resp.body with
    | .error e => .error ("error decoding historical data: " ++ e)
    | .ok data => .ok data

end TClient

/-! ## Concrete articles used by witnesses and counterexamples -/

/-- A concrete mock client, mirroring the MockTradovateClient of the
package test suite: placeOrder echoes the order with id 67890, the
mutating calls succeed, the queries return fixed values. -/
def mockClient : TradovateClientInterface where
  placeOrder := fun o => .ok { o with id := 67890 }
  cancelOrder := fun _ => none
  getFills := fun _ => .ok []
  getMarketData := fun _ => .ok {}
  getHistoricalData := fun _ _ _ _ => .ok []
  setRiskLimits := fun _ => none
  getRiskLimits := fun _ =>
    .ok { accountId := 1, dayMaxLoss := 0, maxDrawdown := 0,
          maxPositionQty := 0, trailingStop := 0 }

/-- A concrete stand-in for time.Parse over two fixed RFC3339 stamps
(every other string fails to parse). -/
def mockParse : String → Except String ℤ := fun s =>
  if s = "2024-01-02T00:00:00Z" then .ok 1704153600
  else if s = "2024-01-01T00:00:00Z" then .ok 1704067200
  else .error "parse failure"

/-- The body of end-to-end scenario 4: a JSON object whose errorText
field is the server message. -/
def errorBody500 : String := "\x7b\"errorText\":\"Internal server error\"\x7d"

/-- A concrete wire on which every request draws an HTTP 500 response
with `errorBody500`, whose error-text decoder accepts exactly that
body, and whose domain decoders never succeed. -/
def wire500 : Wire where
  send := fun _ => .response { statusCode := 500, body := errorBody500 }
  decodeErrText := fun b =>
    if b = errorBody500 then .ok "Internal server error" else .error "no errorText"
  encodeOrder := fun _ => ""
  encodeRisk := fun _ => ""
  encodeHistParams := fun _ _ _ _ => ""
  decodeAccounts := fun _ => .error "unused"
  decodeRisk := fun _ => .error "unused"
  decodeOrder := fun _ => .error "unused"
  decodeFills := fun _ => .error "unused"
  decodePositions := fun _ => .error "unused"
  decodeContracts := fun _ => .error "unused"
  decodeMarket := fun _ => .error "unused"
  decodeHist := fun _ => .error "unused"

/-- A concrete wire on which every request draws an HTTP 500 response
whose body is plain text, so the error-text decoder fails on it. -/
def wire500undecodable : Wire where
  send := fun _ => .response { statusCode := 500, body := "Internal Server Error" }
  decodeErrText := fun b =>
    if b = errorBody500 then .ok "Internal server error" else .error "no errorText"
  encodeOrder := fun _ => ""
  encodeRisk := fun _ => ""
  encodeHistParams := fun _ _ _ _ => ""
  decodeAccounts := fun _ => .error "unused"
  decodeRisk := fun _ => .error "unused"
  decodeOrder := fun _ => .error "unused"
  decodeFills := fun _ => .error "unused"
  decodePositions := fun _ => .error "unused"
  decodeContracts := fun _ => .error "unused"
  decodeMarket := fun _ => .error "unused"
  decodeHist := fun _ => .error "unused"

/-! ## Theorems -/

/-- C1: for placeOrder, validation is two-phase.  Phase one scans the
five required fields in declaration order and reports the first absent
one as a missing-field error; phase two type-checks the present fields
in the same order and reports the first ill-typed one as a type
assertion error.  Both phases return before the client can be invoked
(the conclusion holds for every client), and presence errors take
precedence over type errors (the phase-one conjuncts put no typing
hypothesis on the earlier fields). -/
theorem placeOrder_two_phase_validation
    (client : TradovateClientInterface) (params : Params) :
    ((getParam params "accountId" = none →
        handlePlaceOrder client params = .err "missing required field: accountId") ∧
     (∀ v1, getParam params "accountId" = some v1 →
        getParam params "contractId" = none →
        handlePlaceOrder client params = .err "missing required field: contractId") ∧
     (∀ v1 v2, getParam params "accountId" = some v1 →
        getParam params "contractId" = some v2 →
        getParam params "orderType" = none →
        handlePlaceOrder client params = .err "missing required field: orderType") ∧
     (∀ v1 v2 v3, getParam params "accountId" = some v1 →
        getParam params "contractId" = some v2 →
        getParam params "orderType" = some v3 →
        getParam params "quantity" = none →
        handlePlaceOrder client params = .err "missing required field: quantity") ∧
     (∀ v1 v2 v3 v4, getParam params "accountId" = some v1 →
        getParam params "contractId" = some v2 →
        getParam params "orderType" = some v3 →
        getParam params "quantity" = some v4 →
        getParam params "timeInForce" = none →
        handlePlaceOrder client params = .err "missing required field: timeInForce")) ∧
    (∀ v1 v2 v3 v4 v5, getParam params "accountId" = some v1 →
        getParam params "contractId" = some v2 →
        getParam params "orderType" = some v3 →
        getParam params "quantity" = some v4 →
        getParam params "timeInForce" = some v5 →
      ((asNum (some v1) = none →
          handlePlaceOrder client params = .err "invalid type assertion for accountId") ∧
       (∀ a, asNum (some v1) = some a → asNum (some v2) = none →
          handlePlaceOrder client params = .err "invalid type assertion for contractId") ∧
       (∀ a ct, asNum (some v1) = some a → asNum (some v2) = some ct →
          asStr (some v3) = none →
          handlePlaceOrder client params = .err "invalid type assertion for orderType") ∧
       (∀ a ct ot, asNum (some v1) = some a → asNum (some v2) = some ct →
          asStr (some v3) = some ot → asNum (some v4) = none →
          handlePlaceOrder client params = .err "invalid type assertion for quantity") ∧
       (∀ a ct ot q, asNum (some v1) = some a → asNum (some v2) = some ct →
          asStr (some v3) = some ot → asNum (some v4) = some q →
          asStr (some v5) = none →
          handlePlaceOrder client params = .err "invalid type assertion for timeInForce"))) := by
  constructor
  · refine ⟨?_, ?_, ?_, ?_, ?_⟩
    · intro h1
      simp [handlePlaceOrder, firstMissingField, placeOrderRequiredFields, h1]
    · intro v1 h1 h2
      simp [handlePlaceOrder, firstMissingField, placeOrderRequiredFields, h1, h2]
    · intro v1 v2 h1 h2 h3
      simp [handlePlaceOrder, firstMissingField, placeOrderRequiredFields, h1, h2, h3]
    · intro v1 v2 v3 h1 h2 h3 h4
      simp [handlePlaceOrder, firstMissingField, placeOrderRequiredFields, h1, h2, h3, h4]
    · intro v1 v2 v3 v4 h1 h2 h3 h4 h5
      simp [handlePlaceOrder, firstMissingField, placeOrderRequiredFields, h1, h2, h3, h4, h5]
  · intro v1 v2 v3 v4 v5 h1 h2 h3 h4 h5
    refine ⟨?_, ?_, ?_, ?_, ?_⟩
    · intro ha
      simp [handlePlaceOrder, firstMissingField, placeOrderRequiredFields,
        h1, h2, h3, h4, h5, ha]
    · intro a ha hct
      simp [handlePlaceOrder, firstMissingField, placeOrderRequiredFields,
        h1, h2, h3, h4, h5, ha, hct]
    · intro a ct ha hct hot
      simp [handlePlaceOrder, firstMissingField, placeOrderRequiredFields,
        h1, h2, h3, h4, h5, ha, hct, hot]
    · intro a ct ot ha hct hot hq
      simp [handlePlaceOrder, firstMissingField, placeOrderRequiredFields,
        h1, h2, h3, h4, h5, ha, hct, hot, hq]
    · intro a ct ot q ha hct hot hq htif
      simp [handlePlaceOrder, firstMissingField, placeOrderRequiredFields,
        h1, h2, h3, h4, h5, ha, hct, hot, hq, htif]

/-- Witness for C1: a map missing contractId (while accountId is
present with a wrong type) draws the missing-field error for
contractId, and a fully-present map whose accountId is a string draws
the type-assertion error for accountId. -/
theorem placeOrder_two_phase_validation_witness :
    handlePlaceOrder mockClient [("accountId", GoValue.vstr "x")] =
      .err "missing required field: contractId" ∧
    handlePlaceOrder mockClient
        [("accountId", GoValue.vstr "x"), ("contractId", GoValue.vnum 1),
         ("orderType", GoValue.vstr "Limit"), ("quantity", GoValue.vnum 1),
         ("timeInForce", GoValue.vstr "Day")] =
      .err "invalid type assertion for accountId" := by
  constructor
  · exact (placeOrder_two_phase_validation mockClient
      [("accountId", GoValue.vstr "x")]).1.2.1 _ rfl rfl
  · exact ((placeOrder_two_phase_validation mockClient
      [("accountId", GoValue.vstr "x"), ("contractId", GoValue.vnum 1),
       ("orderType", GoValue.vstr "Limit"), ("quantity", GoValue.vnum 1),
       ("timeInForce", GoValue.vstr "Day")]).2
      _ _ _ _ _ rfl rfl rfl rfl rfl).1 rfl

/-- C2: with the five required placeOrder parameters present and
well-typed, a Limit order whose price parameter is absent or
non-numeric fails with the missing-conditional-field error before any
client call (the conclusion holds for every client), while a Market
order without a price passes validation and is delegated to the
client. -/
theorem placeOrder_limit_price_rule
    (client : TradovateClientInterface) (params : Params)
    (a ct q : ℚ) (tif : String) :
    (getParam params "accountId" = some (.vnum a) →
     getParam params "contractId" = some (.vnum ct) →
     getParam params "orderType" = some (.vstr "Limit") →
     getParam params "quantity" = some (.vnum q) →
     getParam params "timeInForce" = some (.vstr tif) →
     asNum (getParam params "price") = none →
     handlePlaceOrder client params = .err "price is required for Limit orders") ∧
    (getParam params "accountId" = some (.vnum a) →
     getParam params "contractId" = some (.vnum ct) →
     getParam params "orderType" = some (.vstr "Market") →
     getParam params "quantity" = some (.vnum q) →
     getParam params "timeInForce" = some (.vstr tif) →
     getParam params "price" = none →
     handlePlaceOrder client params =
       placeOrderDelegate client
         { accountId := goInt a, contractId := goInt ct, orderType := "Market",
           price := 0, quantity := goInt q, timeInForce := tif }) := by
  constructor
  · intro h1 h2 h3 h4 h5 hp
    have hpr : resolvePrice "Limit" params = .err "price is required for Limit orders" := by
      simp [resolvePrice, hp]
    simp [handlePlaceOrder, firstMissingField, placeOrderRequiredFields, asNum, asStr,
      h1, h2, h3, h4, h5, hpr]
  · intro h1 h2 h3 h4 h5 hp
    have hpr : resolvePrice "Market" params = .ok 0 := by
      simp only [resolvePrice]
      rw [if_neg (by decide)]
    simp [handlePlaceOrder, firstMissingField, placeOrderRequiredFields, asNum, asStr,
      h1, h2, h3, h4, h5, hpr]

/-- Witness for C2: a Limit order without price fails with the
conditional-field error; the same map with orderType Market is
delegated and succeeds against the mock client. -/
theorem placeOrder_limit_price_rule_witness :
    handlePlaceOrder mockClient
        [("accountId", GoValue.vnum 12345), ("contractId", GoValue.vnum 54321),
         ("orderType", GoValue.vstr "Limit"), ("quantity", GoValue.vnum 10),
         ("timeInForce", GoValue.vstr "Day")] =
      .err "price is required for Limit orders" ∧
    handlePlaceOrder mockClient
        [("accountId", GoValue.vnum 12345), ("contractId", GoValue.vnum 54321),
         ("orderType", GoValue.vstr "Market"), ("quantity", GoValue.vnum 10),
         ("timeInForce", GoValue.vstr "Day")] =
      .ok (.rorder { id := 67890, accountId := 12345, contractId := 54321,
                     orderType := "Market", price := 0, quantity := 10,
                     timeInForce := "Day" }) := by
  constructor
  · exact (placeOrder_limit_price_rule mockClient
      [("accountId", GoValue.vnum 12345), ("contractId", GoValue.vnum 54321),
       ("orderType", GoValue.vstr "Limit"), ("quantity", GoValue.vnum 10),
       ("timeInForce", GoValue.vstr "Day")] 12345 54321 10 "Day").1
      rfl rfl rfl rfl rfl rfl
  · have h := (placeOrder_limit_price_rule mockClient
      [("accountId", GoValue.vnum 12345), ("contractId", GoValue.vnum 54321),
       ("orderType", GoValue.vstr "Market"), ("quantity", GoValue.vnum 10),
       ("timeInForce", GoValue.vstr "Day")] 12345 54321 10 "Day").2
      rfl rfl rfl rfl rfl rfl
    exact h.trans (by decide)

/-- C8: when placeOrder validation succeeds, the handler builds the
domain Order by truncating the numeric accountId, contractId and
quantity parameters toward zero, copying orderType and timeInForce, and
copying the price parameter unchanged for Limit orders; it passes
exactly that Order to the client and returns the client result or error
unchanged. -/
theorem placeOrder_success_coercion
    (client : TradovateClientInterface) (params : Params)
    (a ct q p : ℚ) (ot tif : String) (o : Order)
    (h1 : getParam params "accountId" = some (.vnum a))
    (h2 : getParam params "contractId" = some (.vnum ct))
    (h3 : getParam params "orderType" = some (.vstr ot))
    (h4 : getParam params "quantity" = some (.vnum q))
    (h5 : getParam params "timeInForce" = some (.vstr tif))
    (hp : resolvePrice ot params = .ok p)
    (ho : o = { accountId := goInt a, contractId := goInt ct, orderType := ot,
                price := p, quantity := goInt q, timeInForce := tif }) :
    (ot = "Limit" → asNum (getParam params "price") = some p) ∧
    handlePlaceOrder client params = placeOrderDelegate client o ∧
    (∀ res, client.placeOrder o = .ok res →
      handlePlaceOrder client params = .ok (.rorder res)) ∧
    (∀ e, client.placeOrder o = .error e →
      handlePlaceOrder client params = .err e) := by
  subst ho
  refine ⟨?_, ?_, ?_, ?_⟩
  · intro hot
    subst hot
    simp only [resolvePrice, if_pos rfl] at hp
    cases hcase : asNum (getParam params "price") with
    | none => rw [hcase] at hp; simp at hp
    | some x => rw [hcase] at hp; simp at hp; rw [hp]
  · simp [handlePlaceOrder, firstMissingField, placeOrderRequiredFields, asNum, asStr,
      h1, h2, h3, h4, h5, hp]
  · intro res hres
    simp [handlePlaceOrder, firstMissingField, placeOrderRequiredFields, asNum, asStr,
      placeOrderDelegate, h1, h2, h3, h4, h5, hp, hres]
  · intro e hres
    simp [handlePlaceOrder, firstMissingField, placeOrderRequiredFields, asNum, asStr,
      placeOrderDelegate, h1, h2, h3, h4, h5, hp, hres]

/-- Witness for C8: the spec end-to-end scenario 1 — a Limit order with
fractional price 100.5 and numeric ids is passed truncated to the echo
client, which assigns id 67890; the handler returns that result. -/
theorem placeOrder_success_coercion_witness :
    resolvePrice "Limit"
      [("accountId", GoValue.vnum 12345), ("contractId", GoValue.vnum 54321),
       ("orderType", GoValue.vstr "Limit"), ("price", GoValue.vnum (mkRat 201 2)),
       ("quantity", GoValue.vnum 10), ("timeInForce", GoValue.vstr "Day")] =
      .ok (mkRat 201 2) ∧
    handlePlaceOrder mockClient
      [("accountId", GoValue.vnum 12345), ("contractId", GoValue.vnum 54321),
       ("orderType", GoValue.vstr "Limit"), ("price", GoValue.vnum (mkRat 201 2)),
       ("quantity", GoValue.vnum 10), ("timeInForce", GoValue.vstr "Day")] =
      .ok (.rorder { id := 67890, accountId := 12345, contractId := 54321,
                     orderType := "Limit", price := mkRat 201 2, quantity := 10,
                     timeInForce := "Day" }) := by
  constructor
  · decide
  · exact (placeOrder_success_coercion mockClient
      [("accountId", GoValue.vnum 12345), ("contractId", GoValue.vnum 54321),
       ("orderType", GoValue.vstr "Limit"), ("price", GoValue.vnum (mkRat 201 2)),
       ("quantity", GoValue.vnum 10), ("timeInForce", GoValue.vstr "Day")]
      12345 54321 10 (mkRat 201 2) "Limit" "Day" _
      rfl rfl rfl rfl rfl (by decide) rfl).2.2.1 _ (by decide)

/-- C9: for any orderType other than Limit, the supplied numeric price
parameter is ignored and the Order handed to the client carries price
0. -/
theorem placeOrder_nonlimit_ignores_price
    (client : TradovateClientInterface) (params : Params)
    (a ct q pr : ℚ) (ot tif : String)
    (h1 : getParam params "accountId" = some (.vnum a))
    (h2 : getParam params "contractId" = some (.vnum ct))
    (h3 : getParam params "orderType" = some (.vstr ot))
    (h4 : getParam params "quantity" = some (.vnum q))
    (h5 : getParam params "timeInForce" = some (.vstr tif))
    (hot : ot ≠ "Limit")
    (_hpr : getParam params "price" = some (.vnum pr)) :
    handlePlaceOrder client params =
      placeOrderDelegate client
        { accountId := goInt a, contractId := goInt ct, orderType := ot,
          price := 0, quantity := goInt q, timeInForce := tif } := by
  have hrp : resolvePrice ot params = .ok 0 := by
    simp only [resolvePrice]
    rw [if_neg hot]
  simp [handlePlaceOrder, firstMissingField, placeOrderRequiredFields, asNum, asStr,
    h1, h2, h3, h4, h5, hrp]

/-- Witness for C9: a Market order supplying price 100.5 reaches the
echo client with price 0. -/
theorem placeOrder_nonlimit_ignores_price_witness :
    handlePlaceOrder mockClient
      [("accountId", GoValue.vnum 12345), ("contractId", GoValue.vnum 54321),
       ("orderType", GoValue.vstr "Market"), ("price", GoValue.vnum (mkRat 201 2)),
       ("quantity", GoValue.vnum 10), ("timeInForce", GoValue.vstr "Day")] =
      .ok (.rorder { id := 67890, accountId := 12345, contractId := 54321,
                     orderType := "Market", price := 0, quantity := 10,
                     timeInForce := "Day" }) := by
  have h := placeOrder_nonlimit_ignores_price mockClient
    [("accountId", GoValue.vnum 12345), ("contractId", GoValue.vnum 54321),
     ("orderType", GoValue.vstr "Market"), ("price", GoValue.vnum (mkRat 201 2)),
     ("quantity", GoValue.vnum 10), ("timeInForce", GoValue.vstr "Day")]
    12345 54321 10 (mkRat 201 2) "Market" "Day"
    rfl rfl rfl rfl rfl (by decide) rfl
  exact h.trans (by decide)

/-- Counterexample for C3: with all parameters valid and a client whose
SetRiskLimits succeeds, the handler returns the nil result, not a
success map — the source returns `nil, client.SetRiskLimits(limits)`,
so the result component is always nil. -/
theorem setRiskLimits_success_returns_nil
    : handleSetRiskLimits mockClient
        [("accountId", GoValue.vnum 12345), ("dayMaxLoss", GoValue.vnum 1000),
         ("maxDrawdown", GoValue.vnum 500), ("maxPositionQty", GoValue.vnum 10),
         ("trailingStop", GoValue.vnum 50)] = .ok .rnil ∧
      handleSetRiskLimits mockClient
        [("accountId", GoValue.vnum 12345), ("dayMaxLoss", GoValue.vnum 1000),
         ("maxDrawdown", GoValue.vnum 500), ("maxPositionQty", GoValue.vnum 10),
         ("trailingStop", GoValue.vnum 50)] ≠ .ok (.rsuccess true) := by
  decide

/-- C3 as amended: any absent, non-numeric or negative limit field
fails with the missing-or-invalid error naming the first such field in
declaration order, before any client call; with accountId numeric and
all four limit fields present and non-negative the handler delegates
to the client and returns a NIL result on client success (not a
success map), or the client error unchanged. -/
theorem setRiskLimits_validation_and_nil_result
    (client : TradovateClientInterface) (params : Params) :
    (asNum (getParam params "accountId") = none →
      handleSetRiskLimits client params = .err "missing or invalid accountId") ∧
    (∀ a, asNum (getParam params "accountId") = some a →
      (asNum (getParam params "dayMaxLoss") = none ∨
        (∃ x, asNum (getParam params "dayMaxLoss") = some x ∧ x < 0)) →
      handleSetRiskLimits client params = .err "missing or invalid dayMaxLoss") ∧
    (∀ a dml, asNum (getParam params "accountId") = some a →
      asNum (getParam params "dayMaxLoss") = some dml → 0 ≤ dml →
      (asNum (getParam params "maxDrawdown") = none ∨
        (∃ x, asNum (getParam params "maxDrawdown") = some x ∧ x < 0)) →
      handleSetRiskLimits client params = .err "missing or invalid maxDrawdown") ∧
    (∀ a dml mdd, asNum (getParam params "accountId") = some a →
      asNum (getParam params "dayMaxLoss") = some dml → 0 ≤ dml →
      asNum (getParam params "maxDrawdown") = some mdd → 0 ≤ mdd →
      (asNum (getParam params "maxPositionQty") = none ∨
        (∃ x, asNum (getParam params "maxPositionQty") = some x ∧ x < 0)) →
      handleSetRiskLimits client params = .err "missing or invalid maxPositionQty") ∧
    (∀ a dml mdd mpq, asNum (getParam params "accountId") = some a →
      asNum (getParam params "dayMaxLoss") = some dml → 0 ≤ dml →
      asNum (getParam params "maxDrawdown") = some mdd → 0 ≤ mdd →
      asNum (getParam params "maxPositionQty") = some mpq → 0 ≤ mpq →
      (asNum (getParam params "trailingStop") = none ∨
        (∃ x, asNum (getParam params "trailingStop") = some x ∧ x < 0)) →
      handleSetRiskLimits client params = .err "missing or invalid trailingStop") ∧
    (∀ a dml mdd mpq ts L, asNum (getParam params "accountId") = some a →
      asNum (getParam params "dayMaxLoss") = some dml → 0 ≤ dml →
      asNum (getParam params "maxDrawdown") = some mdd → 0 ≤ mdd →
      asNum (getParam params "maxPositionQty") = some mpq → 0 ≤ mpq →
      asNum (getParam params "trailingStop") = some ts → 0 ≤ ts →
      L = { accountId := goInt a, dayMaxLoss := dml, maxDrawdown := mdd,
            maxPositionQty := goInt mpq, trailingStop := ts } →
      handleSetRiskLimits client params = setRiskLimitsDelegate client L ∧
      (client.setRiskLimits L = none → handleSetRiskLimits client params = .ok .rnil) ∧
      (∀ e, client.setRiskLimits L = some e →
        handleSetRiskLimits client params = .err e)) := by
  refine ⟨?_, ?_, ?_, ?_, ?_, ?_⟩
  · intro h1
    simp [handleSetRiskLimits, h1]
  · intro a h1 hbad
    rcases hbad with h2 | ⟨x, h2, hx⟩
    · simp [handleSetRiskLimits, h1, h2]
    · simp [handleSetRiskLimits, h1, h2, hx]
  · intro a dml h1 h2 h2n hbad
    rcases hbad with h3 | ⟨x, h3, hx⟩ <;>
      simp [handleSetRiskLimits, h1, h2, not_lt.2 h2n, *]
  · intro a dml mdd h1 h2 h2n h3 h3n hbad
    rcases hbad with h4 | ⟨x, h4, hx⟩ <;>
      simp [handleSetRiskLimits, h1, h2, not_lt.2 h2n, h3, not_lt.2 h3n, *]
  · intro a dml mdd mpq h1 h2 h2n h3 h3n h4 h4n hbad
    rcases hbad with h5 | ⟨x, h5, hx⟩ <;>
      simp [handleSetRiskLimits, h1, h2, not_lt.2 h2n, h3, not_lt.2 h3n, h4,
        not_lt.2 h4n, *]
  · intro a dml mdd mpq ts L h1 h2 h2n h3 h3n h4 h4n h5 h5n hL
    subst hL
    have hmain : handleSetRiskLimits client params = setRiskLimitsDelegate client
        { accountId := goInt a, dayMaxLoss := dml, maxDrawdown := mdd,
          maxPositionQty := goInt mpq, trailingStop := ts } := by
      simp [handleSetRiskLimits, h1, h2, not_lt.2 h2n, h3, not_lt.2 h3n, h4,
        not_lt.2 h4n, h5, not_lt.2 h5n]
    refine ⟨hmain, ?_, ?_⟩
    · intro hc
      rw [hmain]
      simp [setRiskLimitsDelegate, hc]
    · intro e hc
      rw [hmain]
      simp [setRiskLimitsDelegate, hc]

/-- Witness for C3 as amended: a negative dayMaxLoss is rejected naming
dayMaxLoss (spec end-to-end scenario 3), and the all-valid map
delegates and yields the nil result. -/
theorem setRiskLimits_validation_and_nil_result_witness :
    handleSetRiskLimits mockClient
      [("accountId", GoValue.vnum 12345), ("dayMaxLoss", GoValue.vnum (-1000)),
       ("maxDrawdown", GoValue.vnum 500), ("maxPositionQty", GoValue.vnum 10),
       ("trailingStop", GoValue.vnum 50)] = .err "missing or invalid dayMaxLoss" ∧
    handleSetRiskLimits mockClient
      [("accountId", GoValue.vnum 12345), ("dayMaxLoss", GoValue.vnum 1000),
       ("maxDrawdown", GoValue.vnum 500), ("maxPositionQty", GoValue.vnum 10),
       ("trailingStop", GoValue.vnum 50)] = .ok .rnil := by
  constructor
  · exact (setRiskLimits_validation_and_nil_result mockClient
      [("accountId", GoValue.vnum 12345), ("dayMaxLoss", GoValue.vnum (-1000)),
       ("maxDrawdown", GoValue.vnum 500), ("maxPositionQty", GoValue.vnum 10),
       ("trailingStop", GoValue.vnum 50)]).2.1 12345 rfl
      (Or.inr ⟨-1000, rfl, by decide⟩)
  · exact (((setRiskLimits_validation_and_nil_result mockClient
      [("accountId", GoValue.vnum 12345), ("dayMaxLoss", GoValue.vnum 1000),
       ("maxDrawdown", GoValue.vnum 500), ("maxPositionQty", GoValue.vnum 10),
       ("trailingStop", GoValue.vnum 50)]).2.2.2.2.2 12345 1000 500 10 50 _
      rfl rfl (by decide) rfl (by decide) rfl (by decide) rfl (by decide)
      rfl).2.1 rfl)

/-- C10: the handler puts no sign or range condition on accountId: with
the four limit fields present and non-negative, any numeric accountId
(negative included) passes local validation and the client is invoked
with the truncated accountId. -/
theorem setRiskLimits_no_accountId_range_check
    (client : TradovateClientInterface) (params : Params)
    (a dml mdd mpq ts : ℚ)
    (h1 : asNum (getParam params "accountId") = some a)
    (h2 : asNum (getParam params "dayMaxLoss") = some dml) (h2n : 0 ≤ dml)
    (h3 : asNum (getParam params "maxDrawdown") = some mdd) (h3n : 0 ≤ mdd)
    (h4 : asNum (getParam params "maxPositionQty") = some mpq) (h4n : 0 ≤ mpq)
    (h5 : asNum (getParam params "trailingStop") = some ts) (h5n : 0 ≤ ts) :
    handleSetRiskLimits client params =
      setRiskLimitsDelegate client
        { accountId := goInt a, dayMaxLoss := dml, maxDrawdown := mdd,
          maxPositionQty := goInt mpq, trailingStop := ts } := by
  simp [handleSetRiskLimits, h1, h2, not_lt.2 h2n, h3, not_lt.2 h3n, h4,
    not_lt.2 h4n, h5, not_lt.2 h5n]

/-- Witness for C10: accountId -5.5 (negative, fractional) passes
validation, the client sees the truncated id -5, and the call
succeeds. -/
theorem setRiskLimits_no_accountId_range_check_witness :
    handleSetRiskLimits mockClient
      [("accountId", GoValue.vnum (mkRat (-11) 2)), ("dayMaxLoss", GoValue.vnum 1000),
       ("maxDrawdown", GoValue.vnum 500), ("maxPositionQty", GoValue.vnum 10),
       ("trailingStop", GoValue.vnum 50)] = .ok .rnil ∧
    goInt (mkRat (-11) 2) = -5 := by
  constructor
  · have h := setRiskLimits_no_accountId_range_check mockClient
      [("accountId", GoValue.vnum (mkRat (-11) 2)), ("dayMaxLoss", GoValue.vnum 1000),
       ("maxDrawdown", GoValue.vnum 500), ("maxPositionQty", GoValue.vnum 10),
       ("trailingStop", GoValue.vnum 50)]
      (mkRat (-11) 2) 1000 500 10 50
      rfl rfl (by decide) rfl (by decide) rfl (by decide) rfl (by decide)
    exact h.trans (by decide)
  · decide

/-- C4 (code evaluated at the failing inputs): the handlers for
cancelOrder, getFills, getMarketData, getRiskLimits and
getHistoricalData read their required parameters through bare type
assertions, so calling any of them with the required field omitted
panics instead of returning the missing-field error that the spec and
the package test suite expect; they are not total functions on
parameter maps. -/
theorem raw_assertion_handlers_crash_on_missing_field :
    handleCancelOrder mockClient [] =
      .crash "interface conversion: orderId is not float64" ∧
    handleGetFills mockClient [] =
      .crash "interface conversion: orderId is not float64" ∧
    handleGetMarketData mockClient [] =
      .crash "interface conversion: contractId is not float64" ∧
    handleGetRiskLimits mockClient [] =
      .crash "interface conversion: accountId is not float64" ∧
    handleGetHistoricalData mockParse mockClient [] =
      .crash "interface conversion: startTime is not string" := by
  decide

/-- C5: handleGetHistoricalData first parses startTime and reports a
start-time error, then parses endTime and reports an end-time error,
and when both parse it delegates to the client with the two parsed
instants unconditionally — the conclusion places no ordering constraint
on the two instants, so it applies equally when the end time precedes
the start time. -/
theorem getHistoricalData_parse_then_delegate
    (parse : String → Except String ℤ) (client : TradovateClientInterface)
    (params : Params) (sRaw eRaw : String) :
    (∀ msg, getParam params "startTime" = some (.vstr sRaw) →
      parse sRaw = .error msg →
      handleGetHistoricalData parse client params =
        .err ("invalid start time: " ++ msg)) ∧
    (∀ t1 msg, getParam params "startTime" = some (.vstr sRaw) →
      parse sRaw = .ok t1 →
      getParam params "endTime" = some (.vstr eRaw) →
      parse eRaw = .error msg →
      handleGetHistoricalData parse client params =
        .err ("invalid end time: " ++ msg)) ∧
    (∀ t1 t2 ct iv, getParam params "startTime" = some (.vstr sRaw) →
      parse sRaw = .ok t1 →
      getParam params "endTime" = some (.vstr eRaw) →
      parse eRaw = .ok t2 →
      getParam params "contractId" = some (.vnum ct) →
      getParam params "interval" = some (.vstr iv) →
      handleGetHistoricalData parse client params =
        historicalDataDelegate client (goInt ct) t1 t2 iv) := by
  refine ⟨?_, ?_, ?_⟩
  · intro msg h1 hp1
    simp [handleGetHistoricalData, asStr, asNum, h1, hp1]
  · intro t1 msg h1 hp1 h2 hp2
    simp [handleGetHistoricalData, asStr, asNum, h1, hp1, h2, hp2]
  · intro t1 t2 ct iv h1 hp1 h2 hp2 h3 h4
    simp [handleGetHistoricalData, asStr, asNum, h1, hp1, h2, hp2, h3, h4]

/-- Witness for C5: an unparsable startTime is reported as a start-time
error, and a request whose parsed end instant PRECEDES its parsed start
instant is still delegated and succeeds against the mock client — no
local ordering check intervenes. -/
theorem getHistoricalData_parse_then_delegate_witness :
    handleGetHistoricalData mockParse mockClient
      [("contractId", GoValue.vnum 1), ("startTime", GoValue.vstr "garbage"),
       ("endTime", GoValue.vstr "2024-01-01T00:00:00Z"),
       ("interval", GoValue.vstr "1h")] =
      .err "invalid start time: parse failure" ∧
    handleGetHistoricalData mockParse mockClient
      [("contractId", GoValue.vnum 1),
       ("startTime", GoValue.vstr "2024-01-02T00:00:00Z"),
       ("endTime", GoValue.vstr "2024-01-01T00:00:00Z"),
       ("interval", GoValue.vstr "1h")] = .ok (.rhist []) := by
  constructor
  · exact (getHistoricalData_parse_then_delegate mockParse mockClient
      [("contractId", GoValue.vnum 1), ("startTime", GoValue.vstr "garbage"),
       ("endTime", GoValue.vstr "2024-01-01T00:00:00Z"),
       ("interval", GoValue.vstr "1h")] "garbage" "2024-01-01T00:00:00Z").1
      "parse failure" rfl (by decide)
  · have h := (getHistoricalData_parse_then_delegate mockParse mockClient
      [("contractId", GoValue.vnum 1),
       ("startTime", GoValue.vstr "2024-01-02T00:00:00Z"),
       ("endTime", GoValue.vstr "2024-01-01T00:00:00Z"),
       ("interval", GoValue.vstr "1h")]
      "2024-01-02T00:00:00Z" "2024-01-01T00:00:00Z").2.2
      1704153600 1704067200 1 "1h" rfl (by decide) rfl (by decide) rfl rfl
    exact h.trans (by decide)

/-- C6: for every delegate operation of the client, a response with a
status of at least 400 becomes an error and never a decoded domain
value (the conclusion holds for every wire, so for every possible
domain decoder).  When the body decodes to the server error text the
error carries the numeric status and that text; when the body does not
decode, the error still carries the numeric status alone. -/
theorem client_normalizes_error_status
    (w : Wire) (c : ClientState) (resp : HttpResponse)
    (accountID orderID contractID startTime endTime : ℤ)
    (limits : RiskLimit) (order : Order) (interval : String)
    (hsend : ∀ req, w.send req = .response resp)
    (hstatus : 400 ≤ resp.statusCode) :
    (∀ msg, w.decodeErrText resp.body = .ok msg →
      TClient.getAccounts w c =
        .error ("status " ++ toString resp.statusCode ++ ": " ++ msg) ∧
      TClient.getRiskLimits w c accountID =
        .error ("status " ++ toString resp.statusCode ++ ": " ++ msg) ∧
      TClient.setRiskLimits w c limits =
        some ("status " ++ toString resp.statusCode ++ ": " ++ msg) ∧
      TClient.placeOrder w c order =
        .error ("status " ++ toString resp.statusCode ++ ": " ++ msg) ∧
      TClient.cancelOrder w c orderID =
        some ("status " ++ toString resp.statusCode ++ ": " ++ msg) ∧
      TClient.getFills w c orderID =
        .error ("status " ++ toString resp.statusCode ++ ": " ++ msg) ∧
      TClient.getPositions w c =
        .error ("status " ++ toString resp.statusCode ++ ": " ++ msg) ∧
      TClient.getContracts w c =
        .error ("status " ++ toString resp.statusCode ++ ": " ++ msg) ∧
      TClient.getMarketData w c contractID =
        .error ("status " ++ toString resp.statusCode ++ ": " ++ msg) ∧
      TClient.getHistoricalData w c contractID startTime endTime interval =
        .error ("status " ++ toString resp.statusCode ++ ": " ++ msg)) ∧
    (∀ d, w.decodeErrText resp.body = .error d →
      TClient.getAccounts w c =
        .error ("status " ++ toString resp.statusCode) ∧
      TClient.getRiskLimits w c accountID =
        .error ("status " ++ toString resp.statusCode) ∧
      TClient.setRiskLimits w c limits =
        some ("status " ++ toString resp.statusCode) ∧
      TClient.placeOrder w c order =
        .error ("status " ++ toString resp.statusCode) ∧
      TClient.cancelOrder w c orderID =
        some ("status " ++ toString resp.statusCode) ∧
      TClient.getFills w c orderID =
        .error ("status " ++ toString resp.statusCode) ∧
      TClient.getPositions w c =
        .error ("status " ++ toString resp.statusCode) ∧
      TClient.getContracts w c =
        .error ("status " ++ toString resp.statusCode) ∧
      TClient.getMarketData w c contractID =
        .error ("status " ++ toString resp.statusCode) ∧
      TClient.getHistoricalData w c contractID startTime endTime interval =
        .error ("status " ++ toString resp.statusCode)) := by
  constructor
  · intro msg hdec
    have hdo : ∀ method endpoint body, doRequest w c method endpoint body =
        .error ("status " ++ toString resp.statusCode ++ ": " ++ msg) := by
      intro method endpoint body
      simp [doRequest, hsend, hdec, hstatus]
    refine ⟨?_, ?_, ?_, ?_, ?_, ?_, ?_, ?_, ?_, ?_⟩ <;>
      simp [TClient.getAccounts, TClient.getRiskLimits, TClient.setRiskLimits,
        TClient.placeOrder, TClient.cancelOrder, TClient.getFills,
        TClient.getPositions, TClient.getContracts, TClient.getMarketData,
        TClient.getHistoricalData, hdo]
  · intro d hdec
    have hdo : ∀ method endpoint body, doRequest w c method endpoint body =
        .error ("status " ++ toString resp.statusCode) := by
      intro method endpoint body
      simp [doRequest, hsend, hdec, hstatus]
    refine ⟨?_, ?_, ?_, ?_, ?_, ?_, ?_, ?_, ?_, ?_⟩ <;>
      simp [TClient.getAccounts, TClient.getRiskLimits, TClient.setRiskLimits,
        TClient.placeOrder, TClient.cancelOrder, TClient.getFills,
        TClient.getPositions, TClient.getContracts, TClient.getMarketData,
        TClient.getHistoricalData, hdo]

/-- Witness for C6.  First, end-to-end scenario 4: a server answering
every request with HTTP 500 and an Internal-server-error JSON body
makes the delegates fail with that status and message.  Second, the
same status with a plain-text body that does not decode makes them fail
with the bare status. -/
theorem client_normalizes_error_status_witness :
    TClient.getAccounts wire500 {} = .error "status 500: Internal server error" ∧
    TClient.cancelOrder wire500 {} 67890 = some "status 500: Internal server error" ∧
    TClient.getHistoricalData wire500 {} 1 0 0 "1h" =
      .error "status 500: Internal server error" ∧
    TClient.getAccounts wire500undecodable {} = .error "status 500" ∧
    TClient.cancelOrder wire500undecodable {} 67890 = some "status 500" ∧
    TClient.getHistoricalData wire500undecodable {} 1 0 0 "1h" =
      .error "status 500" := by
  have h := (client_normalizes_error_status wire500 {}
    { statusCode := 500, body := errorBody500 }
    1 67890 1 0 0
    { accountId := 0, dayMaxLoss := 0, maxDrawdown := 0, maxPositionQty := 0,
      trailingStop := 0 }
    { accountId := 0, contractId := 0, orderType := "", quantity := 0,
      timeInForce := "" }
    "1h" (fun _ => rfl) (by decide)).1 "Internal server error" (by decide)
  have hraw := (client_normalizes_error_status wire500undecodable {}
    { statusCode := 500, body := "Internal Server Error" }
    1 67890 1 0 0
    { accountId := 0, dayMaxLoss := 0, maxDrawdown := 0, maxPositionQty := 0,
      trailingStop := 0 }
    { accountId := 0, contractId := 0, orderType := "", quantity := 0,
      timeInForce := "" }
    "1h" (fun _ => rfl) (by decide)).2 "no errorText" (by decide)
  exact ⟨h.1, h.2.2.2.2.1, h.2.2.2.2.2.2.2.2.2,
    hraw.1, hraw.2.2.2.2.1, hraw.2.2.2.2.2.2.2.2.2⟩

/-- Counterexample for C7: a decoded authentication response with empty
error text and empty access token is a SUCCESSFUL Authenticate, yet the
next request carries no Authorization header at all (the source guards
the header with a non-empty check), so it does not carry the stored
token in a bearer header as claimed. -/
theorem authenticate_empty_token_no_bearer_header :
    (authenticate {} (.decoded {})).2 = .ok ({} : AuthResponse) ∧
    (authenticate {} (.decoded {})).1.accessToken = "" ∧
    headerValue
      (buildRequest (authenticate {} (.decoded {})).1 "GET" "/account/list" none)
      "Authorization" = none := by
  decide

/-- C7 as amended: the stored access token is changed only by a
successful Authenticate (every failing outcome — transport failure,
decode failure, or a response with non-empty error text — leaves the
whole client state unchanged; a successful one stores exactly the
received token), and a request built with a NON-EMPTY stored token
carries it in the Authorization bearer header, while an empty stored
token produces no Authorization header.  No operation other than
authenticate writes the state: doRequest and the delegates only read
it. -/
theorem authenticate_token_update_and_bearer_header
    (c : ClientState) (wire : AuthWire) :
    (∀ msg, (authenticate c wire).2 = .error msg → (authenticate c wire).1 = c) ∧
    (∀ r, (authenticate c wire).2 = .ok r →
      (authenticate c wire).1 = { c with accessToken := r.accessToken }) ∧
    (∀ method endpoint body, c.accessToken ≠ "" →
      headerValue (buildRequest c method endpoint body) "Authorization" =
        some ("Bearer " ++ c.accessToken)) ∧
    (∀ method endpoint body, c.accessToken = "" →
      headerValue (buildRequest c method endpoint body) "Authorization" = none) := by
  refine ⟨?_, ?_, ?_, ?_⟩
  · intro msg h
    cases wire with
    | marshalFailure m => rfl
    | transportFailure m => rfl
    | decodeFailure m => rfl
    | decoded r =>
      by_cases he : r.errorText = ""
      · simp [authenticate, he] at h
      · simp [authenticate, he]
  · intro r h
    cases wire with
    | marshalFailure m => simp [authenticate] at h
    | transportFailure m => simp [authenticate] at h
    | decodeFailure m => simp [authenticate] at h
    | decoded r0 =>
      by_cases he : r0.errorText = ""
      · simp [authenticate, he] at h ⊢
        rw [← h]
      · simp [authenticate, he] at h
  · intro method endpoint body hne
    simp [headerValue, buildRequest, hne]
  · intro method endpoint body he
    simp [headerValue, buildRequest, he]

/-- Witness for C7 as amended: a failed authentication keeps the old
token, a successful one stores the received token, and a client with a
non-empty token attaches the bearer header. -/
theorem authenticate_token_update_witness :
    (authenticate { accessToken := "old" } (.decoded { errorText := "bad" })).1 =
      { accessToken := "old" } ∧
    (authenticate {} (.decoded { accessToken := "tok123" })).1 =
      ({ accessToken := "tok123" } : ClientState) ∧
    headerValue
      (buildRequest { accessToken := "tok123" } "GET" "/account/list" none)
      "Authorization" = some "Bearer tok123" := by
  refine ⟨?_, ?_, ?_⟩
  · exact (authenticate_token_update_and_bearer_header
      { accessToken := "old" } (.decoded { errorText := "bad" })).1
      "authentication failed: bad" (by decide)
  · exact (authenticate_token_update_and_bearer_header
      {} (.decoded { accessToken := "tok123" })).2.1
      { accessToken := "tok123" } (by decide)
  · exact (authenticate_token_update_and_bearer_header
      { accessToken := "tok123" } (.decoded {})).2.2.1
      "GET" "/account/list" none (by decide)

end Tradovate
